import Mathlib

/-!
Verification of the SingSync lyrics-resolution pipeline
(`server/src/services/lyrics.ts` and `server/src/routes/lyrics.ts`).

The TypeScript source is shallowly embedded: strings are Lean `String`
(sequences of Unicode code points, matching JS `for..of` iteration),
timestamps are exact rationals `ℚ` (the arithmetic the source performs on
them — `mm*60+ss+ff/100`, sums, absolute differences, comparisons against
0.5/0.6/0.8 — is exact in IEEE doubles for all realistic inputs), and the
filesystem / subprocess / HTTP collaborators are an explicit environment
record holding the values they would yield to the pipeline.
-/

attribute [local semireducible] Rat.add Rat.sub Rat.mul Rat.inv

deriving instance DecidableEq for Except

namespace SingSync

/-! ### Script classifier (`scriptCharCounts`, `detectScript`,
`detectExpectedScriptFromMeta`, `isScriptCompatible`) -/

/-- The closed script classification used by the service. -/
inductive ScriptType where
  | latin | korean | japanese | cyrillic | mixed | unknown
  deriving DecidableEq, Repr

/-- Character-class test for `/[A-Za-z]/`. -/
def isLatinChar (c : Char) : Bool :=
  (65 ≤ c.toNat && c.toNat ≤ 90) || (97 ≤ c.toNat && c.toNat ≤ 122)

/-- Character-class test for `/[가-힯]/` (Hangul syllables). -/
def isHangulChar (c : Char) : Bool :=
  0xac00 ≤ c.toNat && c.toNat ≤ 0xd7af

/-- Character-class test for `/[぀-ゟ]/` (Hiragana). -/
def isHiraganaChar (c : Char) : Bool :=
  0x3040 ≤ c.toNat && c.toNat ≤ 0x309f

/-- Character-class test for `/[゠-ヿ]/` (Katakana). -/
def isKatakanaChar (c : Char) : Bool :=
  0x30a0 ≤ c.toNat && c.toNat ≤ 0x30ff

/-- Character-class test for `/[㐀-䶿一-鿿]/` (Han). -/
def isHanChar (c : Char) : Bool :=
  (0x3400 ≤ c.toNat && c.toNat ≤ 0x4dbf) || (0x4e00 ≤ c.toNat && c.toNat ≤ 0x9fff)

/-- Character-class test for `/[Ѐ-ӿ]/` (Cyrillic). -/
def isCyrillicChar (c : Char) : Bool :=
  0x0400 ≤ c.toNat && c.toNat ≤ 0x04ff

/-- Per-family character counts, the return value of `scriptCharCounts`. -/
structure ScriptCounts where
  latin : Nat
  hangul : Nat
  hiragana : Nat
  katakana : Nat
  han : Nat
  cyrillic : Nat
  deriving DecidableEq, Repr

/-- `scriptCharCounts(input)`: count characters per Unicode block family.
The JS loop `for (const ch of input)` iterates code points, matching
iteration over `String.data`. -/
def scriptCharCounts (input : String) : ScriptCounts :=
  input.data.foldl
    (fun acc ch =>
      { latin := acc.latin + (if isLatinChar ch then 1 else 0)
        hangul := acc.hangul + (if isHangulChar ch then 1 else 0)
        hiragana := acc.hiragana + (if isHiraganaChar ch then 1 else 0)
        katakana := acc.katakana + (if isKatakanaChar ch then 1 else 0)
        han := acc.han + (if isHanChar ch then 1 else 0)
        cyrillic := acc.cyrillic + (if isCyrillicChar ch then 1 else 0) })
    ⟨0, 0, 0, 0, 0, 0⟩

/-- `detectScript(text)` from the source: the largest of the four buckets
(Hiragana+Katakana+Han summed into one Japanese bucket) wins; `unknown`
when the largest bucket is ≤ 1; `mixed` when at least three families are
present. -/
def detectScript (text : String) : ScriptType :=
  let c := scriptCharCounts text
  let japanese := c.hiragana + c.katakana + c.han
  let top := max (max c.latin c.hangul) (max japanese c.cyrillic)
  if top ≤ 1 then .unknown
  else
    let kinds := (if c.latin > 0 then 1 else 0) + (if c.hangul > 0 then 1 else 0)
      + (if japanese > 0 then 1 else 0) + (if c.cyrillic > 0 then 1 else 0)
    if kinds ≥ 3 then .mixed
    else if top = c.hangul then .korean
    else if top = japanese then .japanese
    else if top = c.cyrillic then .cyrillic
    else .latin

/-- `detectExpectedScriptFromMeta(title, channelTitle)`. -/
def detectExpectedScriptFromMeta (title channelTitle : String) : ScriptType :=
  let titleScript := detectScript title
  if titleScript ≠ .unknown && titleScript ≠ .mixed then titleScript
  else detectScript (title ++ " " ++ channelTitle)

/-- `isScriptCompatible(text, expected)` from the source.
`Math.floor(c.latin * 0.6)` equals `6 * latin / 10` in ℕ (exact for every
count reachable from a string length). -/
def isScriptCompatible (text : String) (expected : ScriptType) : Bool :=
  if expected = .unknown || expected = .mixed then true
  else
    let c := scriptCharCounts text
    let japanese := c.hiragana + c.katakana + c.han
    let total := c.latin + c.hangul + japanese + c.cyrillic
    if total = 0 then false
    else if expected = .korean then
      if c.cyrillic > 0 then false else c.hangul ≥ 2 || c.latin ≥ 2
    else if expected = .japanese then
      if c.cyrillic > 0 then false else japanese ≥ 2 || c.latin ≥ 2
    else if expected = .cyrillic then c.cyrillic ≥ 2
    else
      c.latin ≥ 2 && (c.hangul + japanese + c.cyrillic) ≤ max 2 (6 * c.latin / 10)

/-- The Japanese bucket (Hiragana+Katakana+Han) of a text. -/
def japaneseCount (s : String) : Nat :=
  (scriptCharCounts s).hiragana + (scriptCharCounts s).katakana + (scriptCharCounts s).han

/-- The largest of the four script buckets, the quantity the source's
`detectScript` actually compares against 1. -/
def topScriptCount (s : String) : Nat :=
  max (max (scriptCharCounts s).latin (scriptCharCounts s).hangul)
    (max (japaneseCount s) (scriptCharCounts s).cyrillic)

/-- The sum of all classifiable-character counts — the "combined count of
classifiable characters" in the claim's words, built on the source's
`scriptCharCounts`. -/
def combinedScriptCount (s : String) : Nat :=
  (scriptCharCounts s).latin + (scriptCharCounts s).hangul + japaneseCount s
    + (scriptCharCounts s).cyrillic

/-- Number of the four script families present in a text. -/
def scriptKinds (s : String) : Nat :=
  (if (scriptCharCounts s).latin > 0 then 1 else 0)
    + (if (scriptCharCounts s).hangul > 0 then 1 else 0)
    + (if japaneseCount s > 0 then 1 else 0)
    + (if (scriptCharCounts s).cyrillic > 0 then 1 else 0)

/-- Count of the bucket a (non-`mixed`, non-`unknown`) classification names. -/
def bucketCount (s : String) : ScriptType → Nat
  | .latin => (scriptCharCounts s).latin
  | .korean => (scriptCharCounts s).hangul
  | .japanese => japaneseCount s
  | .cyrillic => (scriptCharCounts s).cyrillic
  | .mixed => 0
  | .unknown => 0

/-! ### Text normalisation (`decodeHtmlEntities`, `cleanCaptionText`,
`normalizePlainLyrics`, `splitPlainLyrics`) -/

/-- The whitespace class used for `\s`, `trim` and whitespace collapsing
(the ASCII part of the JS class, which is all that the pipeline's inputs
contain once `&nbsp;` has been decoded to a plain space). -/
def isJsWs (c : Char) : Bool :=
  c = ' ' || c = '\t' || c = '\n' || c = '\r' || c.toNat = 11 || c.toNat = 12

/-- JS `String.prototype.trim`. -/
def trimWs (s : String) : String :=
  ⟨((s.data.dropWhile isJsWs).reverse.dropWhile isJsWs).reverse⟩

/-- Collapse every maximal whitespace run to a single space
(`.replace(/\s+/g, " ")`); `lastWs` records whether the previous character
was part of a run already replaced. -/
def collapseWsAux : Bool → List Char → List Char
  | _, [] => []
  | lastWs, c :: rest =>
    if isJsWs c then
      if lastWs then collapseWsAux true rest else ' ' :: collapseWsAux true rest
    else c :: collapseWsAux false rest

/-- Does `pat` occur at the head of the list? -/
def isPrefixList : List Char → List Char → Bool
  | [], _ => true
  | _ :: _, [] => false
  | p :: ps, c :: cs => p = c && isPrefixList ps cs

/-- Replace every non-overlapping occurrence of `pat`, scanning left to
right, as `.replace(/literal/g, rep)` does; `skip` counts the characters
of a just-matched occurrence still to be consumed. -/
def replaceAllAux (pat rep : List Char) : Nat → List Char → List Char
  | _, [] => []
  | Nat.succ k, _ :: rest => replaceAllAux pat rep k rest
  | 0, c :: rest =>
    if isPrefixList pat (c :: rest) then rep ++ replaceAllAux pat rep (pat.length - 1) rest
    else c :: replaceAllAux pat rep 0 rest

/-- `.replace(/literal/g, rep)` on strings. -/
def jsReplaceAll (s pat rep : String) : String :=
  ⟨replaceAllAux pat.data rep.data 0 s.data⟩

/-- `decodeHtmlEntities(input)`: the six sequential global literal
replacements of the source (each one replaces all non-overlapping
occurrences left to right, exactly as `.replace(/…/g)`). -/
def decodeHtmlEntities (input : String) : String :=
  jsReplaceAll
    (jsReplaceAll
      (jsReplaceAll
        (jsReplaceAll (jsReplaceAll (jsReplaceAll input "&amp;" "&") "&lt;" "<") "&gt;" ">")
        "&quot;" "\"")
      "&#39;" "\x27")
    "&nbsp;" " "

/-- Split a character list at the first occurrence of `target`, returning
the part before it and the part after it. -/
def splitAtChar (target : Char) : List Char → Option (List Char × List Char)
  | [] => none
  | c :: rest =>
    if c = target then some ([], rest)
    else (splitAtChar target rest).map (fun p => (c :: p.1, p.2))

/-- Split a character list on every occurrence of `sep` (the separators
are consumed; `n` separators yield `n+1` chunks). -/
def splitOnChar (sep : Char) : List Char → List (List Char)
  | [] => [[]]
  | c :: rest =>
    if c = sep then [] :: splitOnChar sep rest
    else
      match splitOnChar sep rest with
      | [] => [[c]]
      | l :: ls => (c :: l) :: ls

/-- One segment of `.replace(/<[^>]*>/g, " ")` between `>` boundaries: a
match starts at the segment's first `<` (if any) and runs to the `>` that
ends the segment, so such a segment contributes its prefix plus one
space; a segment without `<` keeps its text and its literal closing
`>`. -/
def stripTagsSegment (seg : List Char) : List Char :=
  match splitAtChar '<' seg with
  | Option.none => seg ++ ['>']
  | some (pre, _) => pre ++ [' ']

/-- Chunk-wise recursion for `stripTagsAux`: the last chunk, having no
`>` after it, can contain no match and is kept verbatim. -/
def stripTagsChunks : List (List Char) → List Char
  | [] => []
  | [lastChunk] => lastChunk
  | seg :: rest => stripTagsSegment seg ++ stripTagsChunks rest

/-- `.replace(/<[^>]*>/g, " ")`: every `<` with a later `>` starts a match
reaching the first `>` after it, replaced by one space; a `<` with no
following `>` is not matched and stays.  Decomposed over the `>`
boundaries of the input. -/
def stripTagsAux (l : List Char) : List Char :=
  stripTagsChunks (splitOnChar '>' l)

/-- `cleanCaptionText(input)`: decode entities, strip `<…>` markup,
collapse whitespace, trim. -/
def cleanCaptionText (input : String) : String :=
  trimWs ⟨collapseWsAux false (stripTagsAux (decodeHtmlEntities input).data)⟩

/-- Collapse every run of three or more newlines to exactly two
(`.replace(/\n{3,}/g, "\n\n")`); `n` counts the newlines just emitted for
the current run. -/
def squeezeNewlines : Nat → List Char → List Char
  | _, [] => []
  | n, c :: rest =>
    if c = '\n' then
      if n ≥ 2 then squeezeNewlines n rest else '\n' :: squeezeNewlines (n + 1) rest
    else c :: squeezeNewlines 0 rest

/-- `normalizePlainLyrics(input)`: drop `\r`, cap blank-line runs, trim. -/
def normalizePlainLyrics (input : String) : String :=
  trimWs ⟨squeezeNewlines 0 (input.data.filter (· ≠ '\r'))⟩

/-- Test for the bracket-only annotation pattern `/^\[[^\]]+\]$/`. -/
def isBracketOnlyLine (s : String) : Bool :=
  match s.data with
  | '[' :: c :: rest =>
    let inner := (c :: rest).dropLast
    (c :: rest).getLast? == some ']' && !inner.isEmpty && inner.all (fun ch => ch ≠ ']')
  | _ => false

/-- Split a character list on `\r?\n` line separators (a lone `\r` is not
a separator), as `content.split(/\r?\n/)` does. -/
def splitNewlineChars : List Char → List (List Char)
  | [] => [[]]
  | '\r' :: '\n' :: rest => [] :: splitNewlineChars rest
  | '\n' :: rest => [] :: splitNewlineChars rest
  | c :: rest =>
    match splitNewlineChars rest with
    | [] => [[c]]
    | l :: ls => (c :: l) :: ls

/-- `content.split(/\r?\n/)` on strings. -/
def splitNewlines (content : String) : List String :=
  (splitNewlineChars content.data).map (fun cs => ⟨cs⟩)

/-- `.split("\n")` on strings (newline chunks as strings). -/
def splitOnNewline (s : String) : List String :=
  (splitOnChar '\n' s.data).map (fun cs => (⟨cs⟩ : String))

/-- `splitPlainLyrics(input)`: normalise, split on newline, clean each
line, drop empty and bracket-only lines. -/
def splitPlainLyrics (input : String) : List String :=
  (((splitOnNewline (normalizePlainLyrics input)).map cleanCaptionText)).filter
    (fun line => line.length > 0 && !isBracketOnlyLine line)

/-! ### Number and timestamp parsing (`Number(...)`, `parseVttTime`,
`parseLrcTimestamp`).  Malformed input yields `none`, standing for the
`NaN` sentinel the source filters out with `Number.isFinite`. -/

/-- Numeric value of a digit string. -/
def digitsToNat (ds : List Char) : Nat :=
  ds.foldl (fun n d => 10 * n + (d.toNat - 48)) 0

/-- Parse an unsigned decimal literal `digits [. digits]` (at least one
digit overall, nothing after). -/
def jsNumMag (cs : List Char) : Option ℚ :=
  let (ip, rest) := cs.span Char.isDigit
  match rest with
  | [] => if ip.isEmpty then none else some (digitsToNat ip : ℚ)
  | '.' :: rest2 =>
    let (fp, rest3) := rest2.span Char.isDigit
    if !rest3.isEmpty then none
    else if ip.isEmpty && fp.isEmpty then none
    else some ((digitsToNat ip : ℚ) + (digitsToNat fp : ℚ) / 10 ^ fp.length)
  | _ => none

/-- JS `Number(string)` on the decimal literals this pipeline feeds it:
whitespace-trimmed, the empty string is 0, an optional sign followed by a
decimal literal; anything else is `NaN` (`none`).  (Exponent, hex and
`Infinity` forms are never produced by the timestamp splitters modelled
here.) -/
def jsNumber (s : String) : Option ℚ :=
  match (trimWs s).data with
  | [] => some 0
  | '-' :: rest => (jsNumMag rest).map (fun q => -q)
  | '+' :: rest => jsNumMag rest
  | cs => jsNumMag cs

/-- Replace the first comma with a dot (`raw.replace(",", ".")` with a
string pattern replaces only the first occurrence). -/
def replaceFirstComma : List Char → List Char
  | [] => []
  | ',' :: rest => '.' :: rest
  | c :: rest => c :: replaceFirstComma rest

/-- `parseVttTime(raw)`: trim, first comma to dot, split on `:`, then
`hh:mm:ss` or `mm:ss` with each field read by `Number`. -/
def parseVttTime (raw : String) : Option ℚ :=
  match (splitOnChar ':' (replaceFirstComma (trimWs raw).data)).map
      (fun cs => (⟨cs⟩ : String)) with
  | [hs, ms, ss] =>
    match jsNumber hs, jsNumber ms, jsNumber ss with
    | some h, some m, some sec => some (h * 3600 + m * 60 + sec)
    | _, _, _ => none
  | [ms, ss] =>
    match jsNumber ms, jsNumber ss with
    | some m, some sec => some (m * 60 + sec)
    | _, _ => none
  | _ => none

/-- `parseLrcTimestamp(raw)`: the anchored pattern
`/^(\d+):(\d+)(?:\.(\d+))?$/`, value `mm*60 + ss + ff/100` (the fraction
is divided by 100 regardless of its digit count, as in the source). -/
def parseLrcTimestamp (raw : String) : Option ℚ :=
  match raw.data.span Char.isDigit with
  | (d1, ':' :: r2) =>
    if d1.isEmpty then none
    else
      match r2.span Char.isDigit with
      | (d2, r3) =>
        if d2.isEmpty then none
        else
          match r3 with
          | [] => some ((digitsToNat d1 : ℚ) * 60 + digitsToNat d2)
          | '.' :: r4 =>
            match r4.span Char.isDigit with
            | (d3, r5) =>
              if d3.isEmpty || !r5.isEmpty then none
              else some ((digitsToNat d1 : ℚ) * 60 + digitsToNat d2 + (digitsToNat d3 : ℚ) / 100)
          | _ => none
  | _ => none

/-! ### Timed lines, stable sort and adjacent de-duplication -/

/-- A `LyricsLine` `{ t, text }` of the source. -/
structure LyricsLine where
  t : ℚ
  text : String
  deriving DecidableEq, Repr

/-- Stable ascending sort by a rational key, modelling
`.sort((a, b) => a.key - b.key)`: insertion sort whose insert step places
an element before the first element with a key not smaller than its own,
so equal keys keep their original order — the stability
`Array.prototype.sort` guarantees. -/
def sortAscBy {α : Type} (key : α → ℚ) (l : List α) : List α :=
  l.insertionSort (fun a b => key a ≤ key b)

/-- One step of the de-duplication loops of the source: `prev` is the last
kept entry; an entry is dropped exactly when its text equals `prev`'s and
the time delta is within `thresh`. -/
def dedupAdjGo (thresh : ℚ) (prev : LyricsLine) : List LyricsLine → List LyricsLine
  | [] => []
  | y :: ys =>
    if prev.text = y.text ∧ |prev.t - y.t| ≤ thresh then dedupAdjGo thresh prev ys
    else y :: dedupAdjGo thresh y ys

/-- The shared `deduped` loop of `parseLrc` / `parseVtt` /
`parseWhisperJson` / `alignPlainLyricsWithSegments` (the first entry is
always kept). -/
def dedupAdjacent (thresh : ℚ) : List LyricsLine → List LyricsLine
  | [] => []
  | x :: xs => x :: dedupAdjGo thresh x xs

/-! ### LRC parser -/

/-- One segment of an LRC line between `]` boundaries: a tag match
`\[([^\]]+)\]` starts at the segment's first `[` and its non-empty
content runs to the `]` ending the segment.  A segment without `[`, or
whose first `[` is its last character (empty content), has no match and
keeps its text together with the literal closing `]`; a matching segment
contributes its prefix and the space the tag is replaced with. -/
def lrcSegment (seg : List Char) : Option String × List Char :=
  match splitAtChar '[' seg with
  | Option.none => (Option.none, seg ++ [']'])
  | some (pre, post) =>
    if post.isEmpty then (Option.none, seg ++ [']'])
    else (some (⟨post⟩ : String), pre ++ [' '])

/-- Chunk-wise recursion for `lrcScan`: the last chunk, having no `]`
after it, can contain no tag and is kept verbatim. -/
def lrcSegments : List (List Char) → List String × List Char
  | [] => ([], [])
  | [lastChunk] => ([], lastChunk)
  | seg :: rest =>
    let p := lrcSegments rest
    match lrcSegment seg with
    | (Option.none, text) => (p.1, text ++ p.2)
    | (some tag, text) => (tag :: p.1, text ++ p.2)

/-- `line.matchAll(/\[([^\]]+)\]/g)` together with
`line.replace(/\[[^\]]+\]/g, " ")` in one pass: returns the tag contents
in order and the line with each matched tag replaced by a space,
decomposed over the `]` boundaries of the line. -/
def lrcScan (l : List Char) : List String × List Char :=
  lrcSegments (splitOnChar ']' l)

/-- The `LyricsLine` entries contributed by one LRC line: skipped when it
has no tags or its cleaned text is empty; otherwise one entry per
well-formed timestamp tag. -/
def lrcLineEntries (line : String) : List LyricsLine :=
  let p := lrcScan line.data
  if p.1.isEmpty then []
  else
    let text := cleanCaptionText ⟨p.2⟩
    if text = "" then []
    else (p.1.filterMap parseLrcTimestamp).map (fun ts => ⟨ts, text⟩)

/-- `parseLrc(content)`: collect entries per line, sort by time, then
de-duplicate with the 0.8 s adjacent rule. -/
def parseLrc (content : String) : List LyricsLine :=
  dedupAdjacent (4 / 5) (sortAscBy (fun x => x.t) ((splitNewlines content).flatMap lrcLineEntries))

/-! ### VTT parser -/

/-- Split a character list on every non-overlapping occurrence of `pat`,
scanning left to right, as `.split("literal")` does; `skip` counts the
characters of a just-matched occurrence still to be consumed. -/
def splitOnListAux (pat : List Char) : Nat → List Char → List (List Char)
  | _, [] => [[]]
  | Nat.succ k, _ :: rest => splitOnListAux pat k rest
  | 0, c :: rest =>
    if isPrefixList pat (c :: rest) then [] :: splitOnListAux pat (pat.length - 1) rest
    else
      match splitOnListAux pat 0 rest with
      | [] => [[c]]
      | l :: ls => (c :: l) :: ls

/-- `.split("literal")` on strings. -/
def jsSplitOn (s pat : String) : List String :=
  (splitOnListAux pat.data 0 s.data).map (fun cs => (⟨cs⟩ : String))

/-- `.join(sep)` on a string list. -/
def joinWith (sep : String) : List String → String
  | [] => ""
  | [s] => s
  | s :: rest => s ++ sep ++ joinWith sep rest

/-- Emit one finished cue of `parseVtt`: nothing when the cleaned,
space-joined text is empty. -/
def finishCue (t : ℚ) (textLines : List String) : List LyricsLine :=
  let text := cleanCaptionText (joinWith " " textLines)
  if text = "" then [] else [⟨t, text⟩]

/-- The cue loop of `parseVtt` as a single pass over the split source
lines.  The state `some (t, textLines)` is the inner text-collection loop
of the source (running from a parsed `-->` header until a blank line or
the end of input); `none` is the outer scan, which skips blank and
`WEBVTT`/`NOTE`/`STYLE` lines, requires a `-->` header, and drops cues
whose start timestamp does not parse. -/
def vttLines : Option (ℚ × List String) → List String → List LyricsLine
  | Option.none, [] => []
  | some st, [] => finishCue st.1 st.2
  | some st, line :: rest =>
    let tr := trimWs line
    if tr = "" then finishCue st.1 st.2 ++ vttLines Option.none rest
    else vttLines (some (st.1, st.2 ++ [tr])) rest
  | Option.none, line :: rest =>
    let l := trimWs line
    if l = "" || isPrefixList "WEBVTT".data l.data || isPrefixList "NOTE".data l.data
        || isPrefixList "STYLE".data l.data then
      vttLines Option.none rest
    else
      match jsSplitOn l "-->" with
      | [_] => vttLines Option.none rest
      | parts =>
        let tok := (jsSplitOn (trimWs (parts.headD "")) " ").headD ""
        match parseVttTime tok with
        | Option.none => vttLines Option.none rest
        | some t => vttLines (some (t, [])) rest

/-- The cue collection of `parseVtt` in source order. -/
def vttCueLines (ls : List String) : List LyricsLine :=
  vttLines Option.none ls

/-- `parseVtt(content)`: collect cues in source order, de-duplicate with
the 0.8 s adjacent rule **in that order**, then sort by start time. -/
def parseVtt (content : String) : List LyricsLine :=
  sortAscBy (fun x => x.t) (dedupAdjacent (4 / 5) (vttCueLines (splitNewlines content)))

/-! ### Candidate data model -/

/-- The closed provenance enum (`"captions" | "catalog" | "catalog_aligned"
| "stt" | "none"`). -/
inductive Source where
  | captions | catalog | catalogAligned | stt | none
  deriving DecidableEq, Repr

/-- The closed mode enum (`"timed" | "plain"`). -/
inductive Mode where
  | timed | plain
  deriving DecidableEq, Repr

/-- The closed sync-method enum (`"native" | "ai" | "none"`); optional in
the TS type but populated on every path modelled here, so embedded as a
plain field. -/
inductive SyncMethod where
  | native | ai | none
  deriving DecidableEq, Repr

/-- A `LyricsCandidate`.  Raw (pre-scoring) candidates are represented
with the `score` field at 0 until the scorer fills it in. -/
structure LyricsCandidate where
  id : String
  label : String
  source : Source
  mode : Mode
  lines : List LyricsLine
  plainLyrics : Option String
  syncMethod : SyncMethod
  score : ℚ
  deriving DecidableEq, Repr

/-- A `LyricsResponse`. -/
structure LyricsResponse where
  videoId : String
  source : Source
  mode : Mode
  lines : List LyricsLine
  plainLyrics : Option String
  syncMethod : SyncMethod
  selectedCandidateId : Option String
  candidates : Option (List LyricsCandidate)
  deriving DecidableEq, Repr

/-! ### Fingerprinting and top-candidate selection -/

/-- A letter-or-digit test standing for `\p{L}\p{N}` on the character
repertoire this service ever classifies (ASCII alphanumerics plus the
Hangul/kana/Han/Cyrillic blocks of `scriptCharCounts`). -/
def isWordChar (c : Char) : Bool :=
  c.isDigit || isLatinChar c || isHangulChar c || isHiraganaChar c || isKatakanaChar c
    || isHanChar c || isCyrillicChar c

/-- The shared normalisation of `normalizedLyricsFingerprint`: lowercase,
replace every non letter/digit/whitespace character by a space, collapse
whitespace, trim, and truncate to the first 2400 characters. -/
def fingerprintNormalize (s : String) : String :=
  ⟨(trimWs ⟨collapseWsAux false
      ((s.data.map Char.toLower).map (fun c =>
        if isWordChar c || isJsWs c then c else ' '))⟩).data.take 2400⟩

/-- `normalizedLyricsFingerprint(mode, lines, plainLyrics)`. -/
def normalizedLyricsFingerprint (mode : Mode) (lines : List LyricsLine)
    (plainLyrics : String) : String :=
  match mode with
  | .timed => fingerprintNormalize (joinWith "\n" (lines.map (·.text)))
  | .plain => fingerprintNormalize plainLyrics

/-- The fingerprint computed for a candidate inside `pickTopCandidates`. -/
def candidateFingerprint (c : LyricsCandidate) : String :=
  normalizedLyricsFingerprint c.mode c.lines (c.plainLyrics.getD "")

/-- The main loop of `pickTopCandidates`: skip empty or already-seen
fingerprints, keep the rest, and stop as soon as the kept list reaches
`limit` (the length test happens after the push, as in the source). -/
def pickTopLoop (limit : Nat) : List LyricsCandidate → List String → List LyricsCandidate →
    List LyricsCandidate
  | [], _, out => out.reverse
  | c :: rest, seen, out =>
    let fp := candidateFingerprint c
    if fp = "" then pickTopLoop limit rest seen out
    else if fp ∈ seen then pickTopLoop limit rest seen out
    else if out.length + 1 ≥ limit then (c :: out).reverse
    else pickTopLoop limit rest (fp :: seen) (c :: out)

/-- `pickTopCandidates(candidates, limit)`: lists of length ≤ 1 are
returned via `slice(0, limit)` without any filtering. -/
def pickTopCandidates (candidates : List LyricsCandidate) (limit : Nat) : List LyricsCandidate :=
  if candidates.length ≤ 1 then candidates.take limit
  else pickTopLoop limit candidates [] []

/-! ### Candidate scoring and payload compatibility -/

/-- `scoreLyricsCandidate(candidate, expectedScript)`. -/
def scoreLyricsCandidate (c : LyricsCandidate) (expectedScript : ScriptType) : ℚ :=
  let lineCount := c.lines.length
  let plainLen := (c.plainLyrics.getD "").length
  let base : ℚ :=
    match c.source with
    | .captions => 96
    | .catalog => if c.mode = .timed then 90 else 84
    | .catalogAligned => 82
    | .stt => 48
    | .none => 0
  let sync : ℚ :=
    (if c.syncMethod = .native then 7 else 0) + (if c.syncMethod = .ai then 2 else 0)
  let density : ℚ :=
    if c.mode = .timed then (min 16 (lineCount / 6) : Nat) else (min 10 (plainLen / 120) : Nat)
  let allText := trimWs (joinWith " " (c.lines.map (·.text)) ++ " " ++ c.plainLyrics.getD "")
  base + sync + density
    + (if allText ≠ "" ∧ isScriptCompatible allText expectedScript then 8 else 0)

/-- `hasCompatibleLyricsPayload(payload, expectedScript)`: an all-empty
payload passes unconditionally. -/
def hasCompatibleLyricsPayload (payload : LyricsResponse) (expectedScript : ScriptType) : Bool :=
  let timedText := joinWith " " (payload.lines.map (·.text))
  let plainText := payload.plainLyrics.getD ""
  let allText := trimWs (timedText ++ " " ++ plainText)
  if allText = "" then true else isScriptCompatible allText expectedScript

/-! ### Whisper segments and plain-text alignment -/

/-- A transcription segment `{ start, text }` after coercion. -/
structure WhisperSegment where
  start : ℚ
  text : String
  deriving DecidableEq, Repr

/-- The map/filter/sort core of `parseWhisperSegments`, applied by
`parseWhisperJson` when the orchestrator reserialises the segment list
(`Number.isFinite` always holds for a rational). -/
def reprocessWhisperSegments (segs : List WhisperSegment) : List WhisperSegment :=
  sortAscBy (fun s => s.start)
    ((segs.map (fun s => WhisperSegment.mk s.start (cleanCaptionText s.text))).filter
      (fun s => decide (0 ≤ s.start) && s.text ≠ ""))

/-- `parseWhisperJson(JSON.stringify({segments}))`: reprocess the
segments, then de-duplicate with the 0.6 s adjacent rule. -/
def whisperLinesOfSegments (segs : List WhisperSegment) : List LyricsLine :=
  dedupAdjacent (3 / 5) ((reprocessWhisperSegments segs).map (fun s => ⟨s.start, s.text⟩))

/-- JS `Math.round` (half away from zero is half-up, i.e. `⌊x + 1/2⌋`,
for the non-negative values produced here). -/
def jsRound (q : ℚ) : ℤ := ⌊q + 1 / 2⌋

/-- `alignPlainLyricsWithSegments(plainLyrics, segments)`: below 4 lines
or 4 segments give no alignment; otherwise each line at normalised
position `i/(N-1)` borrows the start time of the proportionally mapped
segment, and the result is time-sorted and de-duplicated at 0.5 s. -/
def alignPlainLyricsWithSegments (plainLyrics : String) (segments : List WhisperSegment) :
    List LyricsLine :=
  let lines := splitPlainLyrics plainLyrics
  if lines.length < 4 ∨ segments.length < 4 then []
  else
    let timed := lines.enum.map (fun ie =>
      let frac : ℚ := if lines.length = 1 then 0 else (ie.1 : ℚ) / ((lines.length : ℚ) - 1)
      let segIdx :=
        min (segments.length - 1) ((max 0 (jsRound (frac * ((segments.length : ℚ) - 1)))).toNat)
      LyricsLine.mk ((segments.get? segIdx).getD ⟨0, ""⟩).start ie.2)
    dedupAdjacent (1 / 2) (sortAscBy (fun x => x.t) timed)

/-! ### Catalog track extraction -/

/-- The fields of an `LRCLibTrack` the pipeline consumes. -/
structure LRCLibTrack where
  trackName : Option String
  artistName : Option String
  plainLyrics : Option String
  syncedLyrics : Option String
  deriving DecidableEq, Repr

/-- A scored catalog hit as produced by `fetchCatalogLyricsCandidates`. -/
structure CatalogCandidate where
  track : LRCLibTrack
  score : ℚ
  label : String
  deriving DecidableEq, Repr

/-- `extractSyncedLines(track)`. -/
def extractSyncedLines (track : LRCLibTrack) : List LyricsLine :=
  let synced := track.syncedLyrics.getD ""
  if trimWs synced = "" then [] else parseLrc synced

/-- `extractPlainLyrics(track)`. -/
def extractPlainLyrics (track : LRCLibTrack) : String :=
  match track.plainLyrics with
  | some s => normalizePlainLyrics s
  | none => ""

/-! ### The environment: cache directory, external tools and catalog

`getLyrics` touches the world through `readMeta`, `readCachedLyrics`,
`fetchCaptionsViaYtDlp` (+ file read), `fetchCatalogLyricsCandidates` and
`runWhisperAndGetSegments`.  Each collaborator is embedded as the value
it yields to the pipeline; every failure mode (missing tool, timeout,
non-2xx HTTP, unreadable file) is the `none` / empty value.  Quantifying
theorems over every environment covers every state of the cache
directory, the external tools and the catalog responses. -/
structure LyricsEnv where
  /-- `meta.json`'s `title`, already degraded to `""` when missing. -/
  metaTitle : String
  /-- `meta.json`'s `channelTitle`, already degraded to `""` when missing. -/
  metaChannel : String
  /-- The persisted `lyrics.json` document as a parsed value, or `none`
  when the file is missing or unparsable. -/
  cachedDoc : Option LyricsResponse
  /-- Content of the best subtitle file chosen by
  `fetchCaptionsViaYtDlp`/`pickBestSubtitleFile`, or `none` when the
  fetch failed or produced no file. -/
  captionsVtt : Option String
  /-- The scored, filtered, deduplicated hits returned by
  `fetchCatalogLyricsCandidates`. -/
  catalogHits : List CatalogCandidate
  /-- The segments returned by `runWhisperAndGetSegments` (empty on any
  missing tool, missing audio or failed run). -/
  whisperSegs : List WhisperSegment

/-- Counts of external-source invocations made during one resolution:
subtitle fetches (`yt-dlp`), catalog HTTP query rounds, and transcription
runs (each of which first ensures the audio download). -/
structure SourceCalls where
  captionsFetches : Nat
  catalogQueries : Nat
  whisperRuns : Nat
  deriving DecidableEq, Repr

/-- The outcome of one `getLyrics` call: the returned response or a
thrown exception (`Except.error`), the external calls made, and the cache
documents written. -/
structure RunOutcome where
  outcome : Except Unit LyricsResponse
  calls : SourceCalls
  writes : List LyricsResponse
  deriving Repr

/-- `readCachedLyrics`' sync-method coercion: anything that is not
`"native"`/`"ai"` becomes `"none"`. -/
def sanitizeSyncMethod : SyncMethod → SyncMethod
  | .native => .native
  | .ai => .ai
  | .none => .none

/-- `readCachedLyrics`' per-candidate coercion.  On a well-typed
document the field validations (`typeof c.id === "string"`,
`Array.isArray(c.lines)`, finite `t`s, finite score) hold by type, so
only the enum coercions remain. -/
def sanitizeCachedCandidate (c : LyricsCandidate) : LyricsCandidate :=
  { c with syncMethod := sanitizeSyncMethod c.syncMethod }

/-- `readCachedLyrics(videoId)` on the parsed cache document: `null` when
absent or recorded for a different video id; otherwise the coerced
document, whose `candidates` is always an array (`[]` when the field was
missing). -/
def readCachedLyrics (videoId : String) (doc : Option LyricsResponse) : Option LyricsResponse :=
  match doc with
  | Option.none => Option.none
  | some parsed =>
    if parsed.videoId = videoId then
      some
        { videoId := videoId
          source := parsed.source
          mode := parsed.mode
          lines := parsed.lines
          plainLyrics := parsed.plainLyrics
          syncMethod := sanitizeSyncMethod parsed.syncMethod
          selectedCandidateId := parsed.selectedCandidateId
          candidates := some ((parsed.candidates.getD []).map sanitizeCachedCandidate) }
    else Option.none

/-- The literal "no lyrics" result built by `getLyrics` (and, verbatim,
by the route handler's catch block). -/
def noneSentinel (videoId : String) : LyricsResponse :=
  { videoId := videoId
    source := .none
    mode := .plain
    lines := []
    plainLyrics := some ""
    syncMethod := .none
    selectedCandidateId := some "none"
    candidates := some
      [{ id := "none"
         label := "No lyrics"
         source := .none
         mode := .plain
         lines := []
         plainLyrics := some ""
         syncMethod := .none
         score := 0 }] }

/-- The expected script derived at the top of `getLyrics`. -/
def expectedScriptOf (env : LyricsEnv) : ScriptType :=
  detectExpectedScriptFromMeta env.metaTitle env.metaChannel

/-- The cache-reuse test of `getLyrics`: the persisted result is reused
only when it parses, is script-compatible, and carries at least one
candidate. -/
def cacheHit (env : LyricsEnv) (videoId : String) : Option LyricsResponse :=
  match readCachedLyrics videoId env.cachedDoc with
  | some cached =>
    if hasCompatibleLyricsPayload cached (expectedScriptOf env)
        && (cached.candidates.getD []).length > 0 then
      some cached
    else Option.none
  | Option.none => Option.none

/-- Step 1 after a cache miss: the captions candidate, present only when
the chosen subtitle file parses to a non-empty, script-compatible line
list. -/
def captionsStage (env : LyricsEnv) (expectedScript : ScriptType) : List LyricsCandidate :=
  match env.captionsVtt with
  | Option.none => []
  | some raw =>
    let lines := parseVtt raw
    if lines.length > 0 then
      let text := joinWith " " (lines.map (·.text))
      if isScriptCompatible text expectedScript then
        [{ id := "captions_vtt"
           label := "YouTube captions"
           source := .captions
           mode := .timed
           lines := lines
           plainLyrics := Option.none
           syncMethod := .native
           score := 0 }]
      else []
    else []

/-- Step 2: one candidate per catalog hit — timed from synced lyrics when
present, otherwise plain when plain text exists; ids are indexed from 1
by position in the hit list. -/
def catalogStage (hits : List CatalogCandidate) : List LyricsCandidate :=
  hits.enum.filterMap (fun ic =>
    let synced := extractSyncedLines ic.2.track
    let plain := extractPlainLyrics ic.2.track
    if synced.length > 0 then
      some
        { id := "catalog_synced_" ++ toString (ic.1 + 1)
          label := ic.2.label
          source := .catalog
          mode := .timed
          lines := synced
          plainLyrics := Option.none
          syncMethod := .native
          score := 0 }
    else if plain ≠ "" then
      some
        { id := "catalog_plain_" ++ toString (ic.1 + 1)
          label := ic.2.label
          source := .catalog
          mode := .plain
          lines := []
          plainLyrics := some plain
          syncMethod := .none
          score := 0 }
    else Option.none)

/-- The up-to-two plain catalog candidates selected for AI alignment. -/
def plainForAlign (stage12 : List LyricsCandidate) : List LyricsCandidate :=
  (stage12.filter (fun c => c.source = .catalog ∧ c.mode = .plain)).take 2

/-- Step 3: aligned `catalog_aligned` candidates (only when there is
something to align and the shared transcription produced segments). -/
def alignStage (env : LyricsEnv) (stage12 : List LyricsCandidate) : List LyricsCandidate :=
  let toAlign := plainForAlign stage12
  if toAlign.length > 0 ∧ env.whisperSegs.length > 0 then
    toAlign.filterMap (fun c =>
      let aligned := alignPlainLyricsWithSegments (c.plainLyrics.getD "") env.whisperSegs
      if aligned.length > 0 then
        some
          { id := c.id ++ "_aligned"
            label := c.label ++ " (AI sync)"
            source := .catalogAligned
            mode := .timed
            lines := aligned
            plainLyrics := c.plainLyrics
            syncMethod := .ai
            score := 0 }
      else Option.none)
  else []

/-- Step 4: the transcription fallback candidate, attempted only when
steps 1–3 produced nothing. -/
def sttStage (env : LyricsEnv) : List LyricsCandidate :=
  if env.whisperSegs.length > 0 then
    let lines := whisperLinesOfSegments env.whisperSegs
    if lines.length > 0 then
      [{ id := "stt_fallback"
         label := "Whisper transcription"
         source := .stt
         mode := .timed
         lines := lines
         plainLyrics := Option.none
         syncMethod := .ai
         score := 0 }]
    else []
  else []

/-- The full raw-candidate accumulation of `getLyrics` after a cache
miss. -/
def rawCandidatesOf (env : LyricsEnv) (expectedScript : ScriptType) : List LyricsCandidate :=
  let stage12 := captionsStage env expectedScript ++ catalogStage env.catalogHits
  let afterAlign := stage12 ++ alignStage env stage12
  afterAlign ++ (if afterAlign.isEmpty then sttStage env else [])

/-- Number of `runWhisperAndGetSegments` invocations of one fresh run:
one for the alignment step when plain catalog candidates exist, and one
for the fallback step when nothing was found. -/
def whisperRunCount (env : LyricsEnv) (expectedScript : ScriptType) : Nat :=
  let stage12 := captionsStage env expectedScript ++ catalogStage env.catalogHits
  let afterAlign := stage12 ++ alignStage env stage12
  (if (plainForAlign stage12).length > 0 then 1 else 0) + (if afterAlign.isEmpty then 1 else 0)

/-- The pipeline body after a cache miss: subtitle fetch, catalog round,
optional alignment and fallback, then the "none" sentinel or
score/sort/select.  `topCandidates[0]` on an empty selection is the
JS `undefined` whose field access throws — `Except.error ()`. -/
def freshRun (env : LyricsEnv) (videoId : String) : RunOutcome :=
  let expectedScript := expectedScriptOf env
  let raw := rawCandidatesOf env expectedScript
  let calls : SourceCalls := ⟨1, 1, whisperRunCount env expectedScript⟩
  if raw.isEmpty then
    { outcome := .ok (noneSentinel videoId)
      calls := calls
      writes := [noneSentinel videoId] }
  else
    let scored := sortAscBy (fun c => -c.score)
      (raw.map (fun c => { c with score := scoreLyricsCandidate c expectedScript }))
    let top := pickTopCandidates scored 3
    match top with
    | [] => { outcome := .error (), calls := calls, writes := [] }
    | selected :: _ =>
      let result : LyricsResponse :=
        { videoId := videoId
          source := selected.source
          mode := selected.mode
          lines := selected.lines
          plainLyrics := selected.plainLyrics
          syncMethod := selected.syncMethod
          selectedCandidateId := some selected.id
          candidates := some top }
      { outcome := .ok result, calls := calls, writes := [result] }

/-- `getLyrics(videoId)`: cache reuse short-circuits every external
source; otherwise the fresh pipeline runs. -/
def getLyrics (env : LyricsEnv) (videoId : String) : RunOutcome :=
  match cacheHit env videoId with
  | some cached => { outcome := .ok cached, calls := ⟨0, 0, 0⟩, writes := [] }
  | Option.none => freshRun env videoId

/-! ### The HTTP route (`routes/lyrics.ts`) -/

/-- A reply of the lyrics route: the 400 validation error for a missing
`videoId`, or a JSON `LyricsResponse`. -/
inductive HttpReply where
  | badRequest
  | ok (r : LyricsResponse)
  deriving DecidableEq, Repr

/-- The route handler: trim the query parameter, reject the empty id with
a 400, otherwise call `getLyrics` and substitute the verbatim "none"
shape for any thrown exception. -/
def lyricsRouteHandler (env : LyricsEnv) (rawVideoId : String) : HttpReply :=
  let videoId := trimWs rawVideoId
  if videoId = "" then .badRequest
  else
    match (getLyrics env videoId).outcome with
    | .ok r => .ok r
    | .error _ => .ok (noneSentinel videoId)


/-! ### Propositional helpers and concrete test inputs used by the
verification -/

/-- The relation the de-duplication loops establish between adjacent kept
entries: not both identical text and a time delta within `thresh`. -/
def dejittered (thresh : ℚ) (a b : LyricsLine) : Prop :=
  ¬(a.text = b.text ∧ |a.t - b.t| ≤ thresh)

instance (thresh : ℚ) : DecidableRel (dejittered thresh) := fun a b =>
  inferInstanceAs (Decidable ¬(a.text = b.text ∧ |a.t - b.t| ≤ thresh))

/-- The spec's candidate mode invariant, with the two qualifications the
code forces: the `"none"` placeholder is the one plain candidate with
empty text. -/
def modeInvariant (c : LyricsCandidate) : Prop :=
  (c.mode = .timed → c.lines ≠ [])
    ∧ (c.mode = .plain → c.lines = [] ∧ (c.source = .none ∨ c.plainLyrics.getD "" ≠ ""))

/-- A VTT input whose cue order differs from its time order: the two "A"
cues are adjacent after sorting and only 0.5 s apart. -/
def vttJitterInput : String :=
  "WEBVTT\n\n00:10.000 --> 00:11.000\nA\n\n00:00.000 --> 00:01.000\nB\n\n00:10.500 --> 00:11.500\nA\n"

/-- An environment in which every external collaborator yields nothing. -/
def emptyEnv : LyricsEnv :=
  { metaTitle := ""
    metaChannel := ""
    cachedDoc := Option.none
    captionsVtt := Option.none
    catalogHits := []
    whisperSegs := [] }

/-- A catalog track carrying only punctuation as plain lyrics. -/
def punctTrack1 : LRCLibTrack :=
  ⟨Option.none, Option.none, some "???", Option.none⟩

/-- A second catalog track carrying only punctuation as plain lyrics. -/
def punctTrack2 : LRCLibTrack :=
  ⟨Option.none, Option.none, some "!!!", Option.none⟩

/-- An environment whose two catalog hits both produce candidates with an
empty normalised fingerprint. -/
def punctEnv : LyricsEnv :=
  { metaTitle := ""
    metaChannel := ""
    cachedDoc := Option.none
    captionsVtt := Option.none
    catalogHits := [⟨punctTrack1, 0, "x"⟩, ⟨punctTrack2, 0, "y"⟩]
    whisperSegs := [] }

/-- A plain candidate whose text is empty, hence whose fingerprint is
empty. -/
def emptyFpCandidate : LyricsCandidate :=
  ⟨"c1", "empty", .catalog, .plain, [], some "", .none, 50⟩

/-- A plain candidate with fingerprint "aaa". -/
def fpCandA : LyricsCandidate :=
  ⟨"a", "a", .catalog, .plain, [], some "aaa", .none, 40⟩

/-- A plain candidate with fingerprint "bbb". -/
def fpCandB : LyricsCandidate :=
  ⟨"b", "b", .catalog, .plain, [], some "bbb", .none, 30⟩

/-- Four identical plain-lyric lines. -/
def repeatedPlainLyrics : String := "la\nla\nla\nla"

/-- Four transcription segments 0.1 s apart, sorted ascending. -/
def closeSegments : List WhisperSegment :=
  [⟨0, "w"⟩, ⟨1 / 10, "x"⟩, ⟨2 / 10, "y"⟩, ⟨3 / 10, "z"⟩]


/-- The placeholder candidate inside the "none" sentinel result. -/
def nonePlaceholder : LyricsCandidate :=
  ⟨"none", "No lyrics", .none, .plain, [], some "", .none, 0⟩

/-- An environment holding a persisted "none" sentinel for video id
`"v"`. -/
def cachedSentinelEnv : LyricsEnv :=
  { metaTitle := "t"
    metaChannel := "c"
    cachedDoc := some (noneSentinel "v")
    captionsVtt := Option.none
    catalogHits := []
    whisperSegs := [] }

/-- What the lyrics route owes its caller for a usable video id: not the
400 validation reply but a JSON `LyricsResponse` carrying that id (its
`source`/`mode`/`syncMethod` fields lie in their closed enums and `lines`
is a list by the type of `LyricsResponse`). -/
def repliesOkFor (reply : HttpReply) (videoId : String) : Prop :=
  match reply with
  | .badRequest => False
  | .ok r => r.videoId = videoId

/-! ## Proof development -/

theorem sortAscBy_perm {α : Type} (key : α → ℚ) (l : List α) :
    (sortAscBy key l).Perm l :=
  List.perm_insertionSort _ l

theorem sortAscBy_sorted {α : Type} (key : α → ℚ) (l : List α) :
    (sortAscBy key l).Pairwise (fun a b => key a ≤ key b) := by
  haveI : IsTotal α (fun a b => key a ≤ key b) := ⟨fun a b => le_total (key a) (key b)⟩
  haveI : IsTrans α (fun a b => key a ≤ key b) := ⟨fun _ _ _ h1 h2 => le_trans h1 h2⟩
  exact List.sorted_insertionSort _ l

theorem sortAscBy_length {α : Type} (key : α → ℚ) (l : List α) :
    (sortAscBy key l).length = l.length :=
  (sortAscBy_perm key l).length_eq

theorem mem_sortAscBy {α : Type} {key : α → ℚ} {l : List α} {x : α} :
    x ∈ sortAscBy key l ↔ x ∈ l :=
  (sortAscBy_perm key l).mem_iff

/-! ### De-duplication lemmas -/

theorem dedupAdjGo_sublist (thresh : ℚ) :
    ∀ (l : List LyricsLine) (prev : LyricsLine), (dedupAdjGo thresh prev l).Sublist l := by
  intro l
  induction l with
  | nil => intro prev; simp [dedupAdjGo]
  | cons y ys ih =>
    intro prev
    rw [dedupAdjGo]
    split
    · exact (ih prev).trans (List.sublist_cons_self y ys)
    · exact (ih y).cons₂ y

theorem dedupAdjacent_sublist (thresh : ℚ) (l : List LyricsLine) :
    (dedupAdjacent thresh l).Sublist l := by
  cases l with
  | nil => simp [dedupAdjacent]
  | cons x xs =>
    rw [dedupAdjacent]
    exact (dedupAdjGo_sublist thresh xs x).cons₂ x

theorem dedupAdjGo_chain (thresh : ℚ) :
    ∀ (l : List LyricsLine) (prev : LyricsLine),
      List.Chain (dejittered thresh) prev (dedupAdjGo thresh prev l) := by
  intro l
  induction l with
  | nil => intro prev; rw [dedupAdjGo]; exact List.Chain.nil
  | cons y ys ih =>
    intro prev
    rw [dedupAdjGo]
    split
    · exact ih prev
    · rename_i h
      exact List.Chain.cons h (ih y)

theorem dedupAdjacent_chain (thresh : ℚ) (l : List LyricsLine) :
    List.Chain' (dejittered thresh) (dedupAdjacent thresh l) := by
  cases l with
  | nil => rw [dedupAdjacent]; trivial
  | cons x xs =>
    rw [dedupAdjacent]
    exact dedupAdjGo_chain thresh xs x

/-- **C5** (amended): every `TimedLine` sequence produced by `parseLrc`
is sorted ascending by time and has no two adjacent entries of identical
text within 0.8 s; `parseVtt`'s output is sorted ascending by time (its
de-duplication runs in cue order before the sort, so the adjacency
property is not guaranteed for it). -/
theorem claim_C5_parsed_sequences (input : String) :
    (parseLrc input).Pairwise (fun a b => a.t ≤ b.t)
    ∧ List.Chain' (dejittered (4 / 5)) (parseLrc input)
    ∧ (parseVtt input).Pairwise (fun a b => a.t ≤ b.t) := by
  refine ⟨?_, ?_, ?_⟩
  · exact List.Pairwise.sublist (dedupAdjacent_sublist _ _) (sortAscBy_sorted _ _)
  · exact dedupAdjacent_chain _ _
  · exact sortAscBy_sorted _ _

/-- **C5 counterexample**: `parseVtt` de-duplicates before sorting, so an
input whose cue order differs from its time order yields two adjacent
entries with identical text only 0.5 s apart — the claimed invariant
fails for `parseVtt`. -/
theorem claim_C5_counterexample :
    parseVtt vttJitterInput = [⟨0, "B"⟩, ⟨10, "A"⟩, ⟨21 / 2, "A"⟩]
    ∧ ¬ List.Chain' (dejittered (4 / 5)) (parseVtt vttJitterInput) := by
  have heq : parseVtt vttJitterInput = [⟨0, "B"⟩, ⟨10, "A"⟩, ⟨21 / 2, "A"⟩] := by decide
  refine ⟨heq, ?_⟩
  intro h
  rw [heq] at h
  have h2 : dejittered (4 / 5) ⟨10, "A"⟩ ⟨21 / 2, "A"⟩ :=
    (List.chain'_cons.mp (List.chain'_cons.mp h).2).1
  exact (by decide : ¬ dejittered (4 / 5) (⟨10, "A"⟩ : LyricsLine) ⟨21 / 2, "A"⟩) h2

/-! ### Script classification (C6) -/

/-- **C6** (amended): `detectScript` returns `unknown` exactly when the
**largest single bucket** (not the combined count) is at most 1; it
returns `mixed` exactly when the largest bucket is at least 2 and three
or more families are present; otherwise the result names a bucket whose
count is the maximum, chosen deterministically. -/
theorem detectScript_eq (s : String) :
    detectScript s =
      if topScriptCount s ≤ 1 then .unknown
      else if 3 ≤ scriptKinds s then .mixed
      else if topScriptCount s = (scriptCharCounts s).hangul then .korean
      else if topScriptCount s = japaneseCount s then .japanese
      else if topScriptCount s = (scriptCharCounts s).cyrillic then .cyrillic
      else .latin := rfl

theorem topScriptCount_choice (s : String) :
    topScriptCount s = (scriptCharCounts s).latin
    ∨ topScriptCount s = (scriptCharCounts s).hangul
    ∨ topScriptCount s = japaneseCount s
    ∨ topScriptCount s = (scriptCharCounts s).cyrillic := by
  unfold topScriptCount
  rcases max_choice (max (scriptCharCounts s).latin (scriptCharCounts s).hangul)
      (max (japaneseCount s) (scriptCharCounts s).cyrillic) with h | h <;> rw [h]
  · rcases max_choice (scriptCharCounts s).latin (scriptCharCounts s).hangul with h2 | h2 <;>
      rw [h2] <;> tauto
  · rcases max_choice (japaneseCount s) (scriptCharCounts s).cyrillic with h2 | h2 <;>
      rw [h2] <;> tauto

theorem claim_C6_detectScript (s : String) :
    (detectScript s = .unknown ↔ topScriptCount s ≤ 1)
    ∧ (detectScript s = .mixed ↔ 2 ≤ topScriptCount s ∧ 3 ≤ scriptKinds s)
    ∧ (2 ≤ topScriptCount s → scriptKinds s ≤ 2 →
        detectScript s ≠ .unknown ∧ detectScript s ≠ .mixed
          ∧ bucketCount s (detectScript s) = topScriptCount s) := by
  have hch := topScriptCount_choice s
  rw [detectScript_eq]
  split_ifs with h1 h2 h3 h4 h5 <;>
    refine ⟨?_, ?_, fun ha hb => ⟨?_, ?_, ?_⟩⟩ <;>
    simp_all [bucketCount] <;> omega

/-- **C6 counterexample**: a text with one Latin and one Hangul character
has a combined classifiable count of 2, yet `detectScript` still returns
`unknown` — the source compares the largest bucket, not the combined
count, against 1. -/
theorem claim_C6_counterexample :
    detectScript "a한" = .unknown ∧ ¬ combinedScriptCount "a한" ≤ 1 :=
  ⟨by decide, by decide⟩

/-- **C6 witness**: on a concrete text with two Hangul and two Latin
characters the hypotheses hold and the winning bucket carries the
maximum count. -/
theorem claim_C6_witness :
    (2 ≤ topScriptCount "가나ab" ∧ scriptKinds "가나ab" ≤ 2)
    ∧ bucketCount "가나ab" (detectScript "가나ab") = topScriptCount "가나ab" :=
  ⟨⟨by decide, by decide⟩,
    ((claim_C6_detectScript "가나ab").2.2 (by decide) (by decide)).2.2⟩

/-! ### Script compatibility (C7) -/

/-- **C7**: the exact Latin-compatibility boundary (with its
5-Latin/3-Hangul versus 5-Latin/4-Hangul instances), and for
Korean/Japanese expectations: any Cyrillic character fails, while without
Cyrillic a local-script or Latin count of at least 2 passes. -/
theorem claim_C7_isScriptCompatible (t : String) :
    (isScriptCompatible t .latin = true ↔
      2 ≤ (scriptCharCounts t).latin
        ∧ (scriptCharCounts t).hangul + japaneseCount t + (scriptCharCounts t).cyrillic ≤
            max 2 (6 * (scriptCharCounts t).latin / 10))
    ∧ (0 < (scriptCharCounts t).cyrillic →
        isScriptCompatible t .korean = false ∧ isScriptCompatible t .japanese = false)
    ∧ ((scriptCharCounts t).cyrillic = 0 →
        2 ≤ (scriptCharCounts t).hangul ∨ 2 ≤ (scriptCharCounts t).latin →
        isScriptCompatible t .korean = true)
    ∧ ((scriptCharCounts t).cyrillic = 0 →
        2 ≤ japaneseCount t ∨ 2 ≤ (scriptCharCounts t).latin →
        isScriptCompatible t .japanese = true)
    ∧ isScriptCompatible "abcde한글자" .latin = true
    ∧ isScriptCompatible "abcde한글자들" .latin = false := by
  refine ⟨?_, fun hcy => ⟨?_, ?_⟩, fun hcy hloc => ?_, fun hcy hloc => ?_, by decide, by decide⟩
  all_goals
    simp only [isScriptCompatible, japaneseCount] at *
    simp
    omega

/-- **C7 witness**: a Cyrillic-bearing text fails the Korean expectation,
and a Hangul-plus-Latin text passes it. -/
theorem claim_C7_witness :
    isScriptCompatible "дд" ScriptType.korean = false
    ∧ isScriptCompatible "한국어 ab" ScriptType.korean = true :=
  ⟨((claim_C7_isScriptCompatible "дд").2.1 (by decide)).1,
    (claim_C7_isScriptCompatible "한국어 ab").2.2.1 (by decide) (by decide)⟩

/-! ### Top-candidate selection (C8) -/

theorem pickTopLoop_append (limit : Nat) :
    ∀ (l : List LyricsCandidate) (seen : List String) (acc : List LyricsCandidate),
      ∃ t, pickTopLoop limit l seen acc = acc.reverse ++ t ∧ t.Sublist l := by
  intro l
  induction l with
  | nil => intro seen acc; exact ⟨[], by simp [pickTopLoop], List.nil_sublist []⟩
  | cons c rest ih =>
    intro seen acc
    simp only [pickTopLoop]
    split_ifs with h1 h2 h3
    · obtain ⟨t, ht, hsub⟩ := ih seen acc
      exact ⟨t, ht, hsub.cons c⟩
    · obtain ⟨t, ht, hsub⟩ := ih seen acc
      exact ⟨t, ht, hsub.cons c⟩
    · exact ⟨[c], by simp, (List.nil_sublist rest).cons₂ c⟩
    · obtain ⟨t, ht, hsub⟩ := ih (candidateFingerprint c :: seen) (c :: acc)
      exact ⟨c :: t, by simp [ht], hsub.cons₂ c⟩

theorem pickTopLoop_spec (limit : Nat) :
    ∀ (l : List LyricsCandidate) (seen : List String) (acc : List LyricsCandidate),
      (∀ a ∈ acc, candidateFingerprint a ≠ "") →
      (∀ a ∈ acc, candidateFingerprint a ∈ seen) →
      (acc.map candidateFingerprint).Nodup →
      acc.length < limit →
      (∀ a ∈ pickTopLoop limit l seen acc, candidateFingerprint a ≠ "")
      ∧ ((pickTopLoop limit l seen acc).map candidateFingerprint).Nodup
      ∧ (pickTopLoop limit l seen acc).length ≤ limit := by
  intro l
  induction l with
  | nil =>
    intro seen acc hne hseen hnodup hlen
    rw [pickTopLoop]
    refine ⟨fun a ha => hne a (by simpa using ha), ?_, by simpa using Nat.le_of_lt hlen⟩
    rw [List.map_reverse]
    exact List.nodup_reverse.mpr hnodup
  | cons c rest ih =>
    intro seen acc hne hseen hnodup hlen
    simp only [pickTopLoop]
    split_ifs with h1 h2 h3
    · exact ih seen acc hne hseen hnodup hlen
    · exact ih seen acc hne hseen hnodup hlen
    · have hcn : candidateFingerprint c ∉ acc.map candidateFingerprint := by
        intro hmem
        rcases List.mem_map.mp hmem with ⟨a, hma, hfa⟩
        exact h2 (hfa ▸ hseen a hma)
      refine ⟨?_, ?_, ?_⟩
      · intro a ha
        rcases List.mem_cons.mp (List.mem_reverse.mp ha) with rfl | hmem
        · exact h1
        · exact hne a hmem
      · rw [List.map_reverse]
        exact List.nodup_reverse.mpr (List.nodup_cons.mpr ⟨hcn, hnodup⟩)
      · simpa using hlen
    · apply ih (candidateFingerprint c :: seen) (c :: acc)
      · intro a ha
        rcases List.mem_cons.mp ha with rfl | hmem
        · exact h1
        · exact hne a hmem
      · intro a ha
        rcases List.mem_cons.mp ha with rfl | hmem
        · exact List.mem_cons_self _ _
        · exact List.mem_cons_of_mem _ (hseen a hmem)
      · refine List.nodup_cons.mpr ⟨?_, hnodup⟩
        intro hmem
        rcases List.mem_map.mp hmem with ⟨a, hma, hfa⟩
        exact h2 (hfa ▸ hseen a hma)
      · simp only [List.length_cons]
        omega

theorem pickTopCandidates_sublist (l : List LyricsCandidate) (n : Nat) :
    (pickTopCandidates l n).Sublist l := by
  rw [pickTopCandidates]
  split_ifs
  · exact List.take_sublist n l
  · obtain ⟨t, ht, hsub⟩ := pickTopLoop_append n l [] []
    simpa [ht] using hsub

/-- **C8** (amended): for lists of at least two candidates and a positive
limit, `pickTopCandidates` keeps no candidate with an empty fingerprint,
keeps no two candidates with the same fingerprint, preserves the input
order (its output is a sublist of the input), and respects the limit.
Lists of length at most one are returned as `slice(0, limit)` with no
filtering at all. -/
theorem claim_C8_pickTopCandidates (cands : List LyricsCandidate) (limit : Nat) :
    (cands.length ≤ 1 → pickTopCandidates cands limit = cands.take limit)
    ∧ (pickTopCandidates cands limit).Sublist cands
    ∧ (2 ≤ cands.length → 1 ≤ limit →
        (∀ c ∈ pickTopCandidates cands limit, candidateFingerprint c ≠ "")
        ∧ ((pickTopCandidates cands limit).map candidateFingerprint).Nodup
        ∧ (pickTopCandidates cands limit).length ≤ limit) := by
  refine ⟨?_, pickTopCandidates_sublist cands limit, fun h2 h1 => ?_⟩
  · intro h; rw [pickTopCandidates, if_pos h]
  · rw [pickTopCandidates, if_neg (by omega)]
    exact pickTopLoop_spec limit cands [] [] (by simp) (by simp) (by simp) (by simp only [List.length_nil]; omega)

/-- **C8 counterexample**: the `candidates.length <= 1` early return of
the source bypasses all filtering, so a single candidate with an empty
fingerprint survives; and with limit 0 the loop's post-push length test
still emits one candidate. -/
theorem claim_C8_counterexample :
    pickTopCandidates [emptyFpCandidate] 3 = [emptyFpCandidate]
    ∧ candidateFingerprint emptyFpCandidate = ""
    ∧ pickTopCandidates [fpCandA, fpCandB] 0 = [fpCandA] :=
  ⟨by decide, by decide, by decide⟩

/-- **C8 witness**: on a concrete two-candidate list with limit 3 the
hypotheses hold and the selection properties follow. -/
theorem claim_C8_witness :
    (∀ c ∈ pickTopCandidates [fpCandA, fpCandB] 3, candidateFingerprint c ≠ "")
    ∧ (pickTopCandidates [fpCandA, fpCandB] 3).length ≤ 3 :=
  ⟨((claim_C8_pickTopCandidates [fpCandA, fpCandB] 3).2.2 (by decide) (by decide)).1,
    ((claim_C8_pickTopCandidates [fpCandA, fpCandB] 3).2.2 (by decide) (by decide)).2.2⟩

/-! ### Plain-text alignment (C9) -/

theorem dedupAdjacent_ne_nil {thresh : ℚ} {l : List LyricsLine} (h : l ≠ []) :
    dedupAdjacent thresh l ≠ [] := by
  cases l with
  | nil => exact absurd rfl h
  | cons x xs => rw [dedupAdjacent]; simp

theorem one_le_dedupAdjacent_length (thresh : ℚ) (l : List LyricsLine) (h : l ≠ []) :
    1 ≤ (dedupAdjacent thresh l).length := by
  have hne : dedupAdjacent thresh l ≠ [] := dedupAdjacent_ne_nil h
  cases hq : dedupAdjacent thresh l with
  | nil => exact absurd hq hne
  | cons a as => simp

theorem closeSegments_sorted : closeSegments.Pairwise (fun a b => a.start ≤ b.start) := by
  unfold closeSegments
  refine List.Pairwise.cons ?_ (List.Pairwise.cons ?_ (List.Pairwise.cons ?_
    (List.pairwise_singleton _ _))) <;>
    intro b hb <;> simp_all <;> rcases hb with rfl | rfl | rfl <;> norm_num

/-- **C9** (amended): below 4 lyric lines or 4 segments the alignment is
empty; otherwise the timed sequence is non-empty, has **at most** (not
exactly) as many lines as the plain text — adjacent identical lines
within 0.5 s are collapsed by the final de-duplication — and its
timestamps are non-decreasing. -/
theorem claim_C9_alignPlainLyrics (plainLyrics : String) (segments : List WhisperSegment) :
    (((splitPlainLyrics plainLyrics).length < 4 ∨ segments.length < 4) →
      alignPlainLyricsWithSegments plainLyrics segments = [])
    ∧ (4 ≤ (splitPlainLyrics plainLyrics).length → 4 ≤ segments.length →
        segments.Pairwise (fun a b => a.start ≤ b.start) →
        1 ≤ (alignPlainLyricsWithSegments plainLyrics segments).length
        ∧ (alignPlainLyricsWithSegments plainLyrics segments).length ≤
            (splitPlainLyrics plainLyrics).length
        ∧ (alignPlainLyricsWithSegments plainLyrics segments).Pairwise
            (fun a b => a.t ≤ b.t)) := by
  constructor
  · intro h
    simp only [alignPlainLyricsWithSegments]
    rw [if_pos (by omega)]
  · intro hl hs _
    simp only [alignPlainLyricsWithSegments]
    rw [if_neg (by omega)]
    refine ⟨?_, ?_, ?_⟩
    · apply one_le_dedupAdjacent_length
      intro hnil
      have hz := congrArg List.length hnil
      rw [sortAscBy_length, List.length_map, List.enum_length] at hz
      simp only [List.length_nil] at hz
      omega
    · refine le_trans (dedupAdjacent_sublist _ _).length_le ?_
      rw [sortAscBy_length, List.length_map, List.enum_length]
    · exact List.Pairwise.sublist (dedupAdjacent_sublist _ _) (sortAscBy_sorted _ _)

/-- **C9 counterexample**: four identical lyric lines mapped onto four
segments 0.1 s apart collapse to a single timed line, so the output line
count (1) differs from the plain-text line count (4) even though all of
the claim's hypotheses hold. -/
theorem claim_C9_counterexample :
    (splitPlainLyrics repeatedPlainLyrics).length = 4
    ∧ closeSegments.length = 4
    ∧ closeSegments.Pairwise (fun a b => a.start ≤ b.start)
    ∧ alignPlainLyricsWithSegments repeatedPlainLyrics closeSegments = [⟨0, "la"⟩] :=
  ⟨by decide, by decide, closeSegments_sorted, by decide⟩

/-- **C9 witness**: with four distinct lines and four sorted segments the
hypotheses hold and the amended bounds follow. -/
theorem claim_C9_witness :
    1 ≤ (alignPlainLyricsWithSegments "a\nb\nc\nd" closeSegments).length
    ∧ (alignPlainLyricsWithSegments "a\nb\nc\nd" closeSegments).length ≤
        (splitPlainLyrics "a\nb\nc\nd").length :=
  ⟨((claim_C9_alignPlainLyrics "a\nb\nc\nd" closeSegments).2 (by decide) (by decide)
      closeSegments_sorted).1,
    ((claim_C9_alignPlainLyrics "a\nb\nc\nd" closeSegments).2 (by decide) (by decide)
      closeSegments_sorted).2.1⟩

/-! ### Orchestrator and route (C1, C2, C3, C10) -/

theorem readCachedLyrics_videoId {videoId : String} {doc : Option LyricsResponse}
    {r : LyricsResponse} (h : readCachedLyrics videoId doc = some r) : r.videoId = videoId := by
  cases doc with
  | none => simp [readCachedLyrics] at h
  | some parsed =>
    simp only [readCachedLyrics] at h
    split_ifs at h with hv
    simp only [Option.some.injEq] at h
    exact h ▸ rfl

theorem cacheHit_videoId {env : LyricsEnv} {videoId : String} {r : LyricsResponse}
    (h : cacheHit env videoId = some r) : r.videoId = videoId := by
  rw [cacheHit] at h
  cases hr : readCachedLyrics videoId env.cachedDoc with
  | none => rw [hr] at h; simp at h
  | some cached =>
    rw [hr] at h
    simp only [] at h
    split_ifs at h with hc
    simp only [Option.some.injEq] at h
    exact h ▸ readCachedLyrics_videoId hr

theorem freshRun_videoId {env : LyricsEnv} {videoId : String} {r : LyricsResponse}
    (h : (freshRun env videoId).outcome = .ok r) : r.videoId = videoId := by
  simp only [freshRun] at h
  split_ifs at h with hraw
  · simp only [Except.ok.injEq] at h
    exact h ▸ rfl
  · split at h
    · simp at h
    · simp only [Except.ok.injEq] at h
      exact h ▸ rfl

theorem getLyrics_videoId {env : LyricsEnv} {videoId : String} {r : LyricsResponse}
    (h : (getLyrics env videoId).outcome = .ok r) : r.videoId = videoId := by
  rw [getLyrics] at h
  cases hc : cacheHit env videoId with
  | some cached =>
    rw [hc] at h
    simp only [Except.ok.injEq] at h
    exact h ▸ cacheHit_videoId hc
  | none =>
    rw [hc] at h
    exact freshRun_videoId h

/-- **C1** (amended): for every environment and every videoId whose trim
is non-empty, the route handler never raises and replies with a
structurally valid `LyricsResponse` carrying that id — `getLyrics` itself
can throw (see the counterexample), but the route guard substitutes the
verbatim "none" shape; a blank videoId is rejected with the 400
validation reply before `getLyrics` is invoked. -/
theorem claim_C1_route (env : LyricsEnv) (rawVideoId : String) (h : trimWs rawVideoId ≠ "") :
    repliesOkFor (lyricsRouteHandler env rawVideoId) (trimWs rawVideoId) := by
  simp only [lyricsRouteHandler]
  rw [if_neg h]
  cases ho : (getLyrics env (trimWs rawVideoId)).outcome with
  | ok r => simpa [repliesOkFor] using getLyrics_videoId ho
  | error e => simp [repliesOkFor, noneSentinel]

/-- **C1 counterexample**: a whitespace-only videoId makes the route
reply with the 400 error rather than a `LyricsResult`; and in an
environment whose two catalog hits both carry punctuation-only lyrics,
`getLyrics` itself throws (`topCandidates[0]` on an empty selection). -/
theorem claim_C1_counterexample :
    lyricsRouteHandler emptyEnv "   " = .badRequest
    ∧ (getLyrics punctEnv "vid").outcome = .error () :=
  ⟨by decide, by decide⟩

/-- **C1 witness**: a paddable but non-blank id gets a valid reply. -/
theorem claim_C1_witness :
    repliesOkFor (lyricsRouteHandler emptyEnv " v ") (trimWs " v ") :=
  claim_C1_route emptyEnv " v " (by decide)

/-- **C2**: whenever the cache is not reused and the pipeline accumulates
zero raw candidates, `getLyrics` persists and returns exactly the fixed
"none" sentinel (source `none`, mode `plain`, empty lines, empty
`plainLyrics`, `selectedCandidateId = "none"`, one placeholder candidate
with id `"none"` and score 0). -/
theorem claim_C2_noneResult (env : LyricsEnv) (videoId : String)
    (hmiss : cacheHit env videoId = Option.none)
    (hraw : rawCandidatesOf env (expectedScriptOf env) = []) :
    (getLyrics env videoId).outcome = .ok (noneSentinel videoId)
    ∧ (getLyrics env videoId).writes = [noneSentinel videoId] := by
  simp [getLyrics, hmiss, freshRun, hraw]

/-- **C2 witness**: in the all-empty environment both hypotheses hold and
the sentinel is returned and written. -/
theorem claim_C2_witness :
    (getLyrics emptyEnv "v").outcome = .ok (noneSentinel "v")
    ∧ (getLyrics emptyEnv "v").writes = [noneSentinel "v"] :=
  claim_C2_noneResult emptyEnv "v" (by decide) (by decide)

/-- **C3**: a persisted result that parses for the requested id, is
script-compatible with the re-derived expected script, and carries at
least one candidate is returned unchanged, with zero subtitle fetches,
zero catalog query rounds and zero transcription runs (hence no audio
download), and nothing rewritten. -/
theorem claim_C3_cacheReuse (env : LyricsEnv) (videoId : String) (r : LyricsResponse)
    (hread : readCachedLyrics videoId env.cachedDoc = some r)
    (hcompat : hasCompatibleLyricsPayload r (expectedScriptOf env) = true)
    (hnonempty : 0 < (r.candidates.getD []).length) :
    (getLyrics env videoId).outcome = .ok r
    ∧ (getLyrics env videoId).calls = ⟨0, 0, 0⟩
    ∧ (getLyrics env videoId).writes = [] := by
  have hhit : cacheHit env videoId = some r := by
    simp only [cacheHit, hread]
    rw [if_pos (by simp [hcompat, hnonempty])]
  have hrun : getLyrics env videoId = ⟨.ok r, ⟨0, 0, 0⟩, []⟩ := by
    rw [getLyrics, hhit]
  exact ⟨by rw [hrun], by rw [hrun], by rw [hrun]⟩

/-- **C3 witness**: a concrete environment holding a compatible persisted
result with one candidate is served from the cache with zero calls. -/
theorem claim_C3_witness :
    (getLyrics cachedSentinelEnv "v").outcome = .ok (noneSentinel "v")
    ∧ (getLyrics cachedSentinelEnv "v").calls = ⟨0, 0, 0⟩ :=
  ⟨(claim_C3_cacheReuse cachedSentinelEnv "v" (noneSentinel "v") (by decide) (by decide)
      (by decide)).1,
    (claim_C3_cacheReuse cachedSentinelEnv "v" (noneSentinel "v") (by decide) (by decide)
      (by decide)).2.1⟩

/-- **C10**: once the "none" sentinel is the persisted document for a
videoId, every later `getLyrics` call (any metadata) returns it from the
cache with zero external calls and no rewrite — because its all-empty
payload passes `hasCompatibleLyricsPayload` and its single placeholder
makes the candidates array non-empty, so "no lyrics" is never retried. -/
theorem claim_C10_noneIsSticky (env : LyricsEnv) (videoId : String)
    (hc : env.cachedDoc = some (noneSentinel videoId)) :
    (getLyrics env videoId).outcome = .ok (noneSentinel videoId)
    ∧ (getLyrics env videoId).calls = ⟨0, 0, 0⟩
    ∧ (getLyrics env videoId).writes = []
    ∧ hasCompatibleLyricsPayload (noneSentinel videoId) (expectedScriptOf env) = true
    ∧ 0 < ((noneSentinel videoId).candidates.getD []).length := by
  have hread : readCachedLyrics videoId env.cachedDoc = some (noneSentinel videoId) := by
    rw [hc]
    simp only [readCachedLyrics]
    rw [if_pos (show (noneSentinel videoId).videoId = videoId from rfl)]
    rfl
  have hcompat : hasCompatibleLyricsPayload (noneSentinel videoId) (expectedScriptOf env) = true :=
    rfl
  have hhit : cacheHit env videoId = some (noneSentinel videoId) := by
    simp only [cacheHit, hread]
    rw [if_pos (by rw [hcompat]; simp [noneSentinel])]
  have hrun : getLyrics env videoId = ⟨.ok (noneSentinel videoId), ⟨0, 0, 0⟩, []⟩ := by
    rw [getLyrics, hhit]
  exact ⟨by rw [hrun], by rw [hrun], by rw [hrun], hcompat, by simp [noneSentinel]⟩

/-- **C10 witness**: the concrete sentinel-holding environment satisfies
the hypothesis and the cached sentinel is simply served again. -/
theorem claim_C10_witness :
    (getLyrics cachedSentinelEnv "v").writes = []
    ∧ hasCompatibleLyricsPayload (noneSentinel "v") (expectedScriptOf cachedSentinelEnv) = true :=
  ⟨(claim_C10_noneIsSticky cachedSentinelEnv "v" (by decide)).2.2.1,
    (claim_C10_noneIsSticky cachedSentinelEnv "v" (by decide)).2.2.2.1⟩

/-! ### Candidate mode invariant (C4) -/

theorem captionsStage_invariant (env : LyricsEnv) (es : ScriptType) :
    ∀ c ∈ captionsStage env es, modeInvariant c := by
  intro c hc
  cases hv : env.captionsVtt with
  | none => simp [captionsStage, hv] at hc
  | some raw =>
    simp only [captionsStage, hv] at hc
    split_ifs at hc with h1 h2
    · rcases List.mem_singleton.mp hc with rfl
      exact ⟨fun _ => List.length_pos.mp h1, fun hm => by simp at hm⟩
    · simp at hc
    · simp at hc

theorem catalogStage_invariant (hits : List CatalogCandidate) :
    ∀ c ∈ catalogStage hits, modeInvariant c := by
  intro c hc
  simp only [catalogStage] at hc
  rcases List.mem_filterMap.mp hc with ⟨ic, _, hf⟩
  split_ifs at hf with h1 h2
  · simp only [Option.some.injEq] at hf
    rw [← hf]
    exact ⟨fun _ => List.length_pos.mp h1, fun hm => by simp at hm⟩
  · simp only [Option.some.injEq] at hf
    rw [← hf]
    exact ⟨fun hm => by simp at hm, fun _ => ⟨rfl, Or.inr h2⟩⟩

theorem alignStage_invariant (env : LyricsEnv) (stage12 : List LyricsCandidate) :
    ∀ c ∈ alignStage env stage12, modeInvariant c := by
  intro c hc
  simp only [alignStage] at hc
  split_ifs at hc with hg
  · rcases List.mem_filterMap.mp hc with ⟨c0, _, hf⟩
    split_ifs at hf with h1
    · simp only [Option.some.injEq] at hf
      rw [← hf]
      exact ⟨fun _ => List.length_pos.mp h1, fun hm => by simp at hm⟩
  · simp at hc

theorem sttStage_invariant (env : LyricsEnv) : ∀ c ∈ sttStage env, modeInvariant c := by
  intro c hc
  simp only [sttStage] at hc
  split_ifs at hc with h1 h2
  · rcases List.mem_singleton.mp hc with rfl
    exact ⟨fun _ => List.length_pos.mp h2, fun hm => by simp at hm⟩
  · simp at hc
  · simp at hc

theorem rawCandidatesOf_invariant (env : LyricsEnv) (es : ScriptType) :
    ∀ c ∈ rawCandidatesOf env es, modeInvariant c := by
  intro c hc
  simp only [rawCandidatesOf] at hc
  rcases List.mem_append.mp hc with h2 | hstt
  · rcases List.mem_append.mp h2 with h12 | halign
    · rcases List.mem_append.mp h12 with hcap | hcat
      · exact captionsStage_invariant env es c hcap
      · exact catalogStage_invariant env.catalogHits c hcat
    · exact alignStage_invariant env _ c halign
  · split at hstt
    · exact sttStage_invariant env c hstt
    · simp at hstt

/-- **C4** (amended): every candidate in every freshly computed
(non-cache-hit) `LyricsResult` satisfies: timed mode implies non-empty
lines; plain mode implies empty lines and non-empty `plainLyrics`,
**except** the `"none"` placeholder (source `none`), whose plain text is
empty — a cached result is returned as persisted without
re-validation. -/
theorem claim_C4_modeInvariant (env : LyricsEnv) (videoId : String) (r : LyricsResponse)
    (hmiss : cacheHit env videoId = Option.none)
    (hok : (getLyrics env videoId).outcome = .ok r) :
    ∀ c ∈ r.candidates.getD [], modeInvariant c := by
  rw [getLyrics, hmiss] at hok
  simp only [freshRun] at hok
  split_ifs at hok with hraw
  · simp only [Except.ok.injEq] at hok
    subst hok
    intro c hc
    simp only [noneSentinel, Option.getD_some, List.mem_singleton] at hc
    subst hc
    exact ⟨fun hm => absurd hm (by decide), fun _ => ⟨rfl, Or.inl rfl⟩⟩
  · split at hok
    · simp at hok
    · rename_i sel rest heq
      simp only [Except.ok.injEq] at hok
      subst hok
      intro c hc
      simp only [Option.getD_some] at hc
      have hmem := (pickTopCandidates_sublist _ _).subset hc
      rw [mem_sortAscBy] at hmem
      rcases List.mem_map.mp hmem with ⟨c0, hc0, rfl⟩
      exact rawCandidatesOf_invariant env _ c0 hc0

/-- **C4 counterexample**: when every source fails, the returned result's
candidates array contains the placeholder, a `plain`-mode candidate with
an **empty** `plainLyrics` — the claimed "plain implies non-empty text"
invariant fails on it. -/
theorem claim_C4_counterexample :
    (getLyrics emptyEnv "v").outcome = .ok (noneSentinel "v")
    ∧ nonePlaceholder ∈ (noneSentinel "v").candidates.getD []
    ∧ nonePlaceholder.mode = .plain
    ∧ nonePlaceholder.plainLyrics.getD "" = "" :=
  ⟨by decide, by decide, by decide, by decide⟩

/-- **C4 witness**: the amended invariant instantiated at the placeholder
candidate of a concrete fresh run. -/
theorem claim_C4_witness : modeInvariant nonePlaceholder :=
  claim_C4_modeInvariant emptyEnv "v" (noneSentinel "v") (by decide) (by decide)
    nonePlaceholder (by decide)

end SingSync
